import Mathlib

/-!
Shallow embedding of the Trash-Manager process-control backend
(`src/backend/src/{types,process_kill,process_list,lib}.rs`) and proofs
about its kill-escalation protocol, CPU-utilization estimator and
process enumeration.

The kernel environment (signal delivery results, clock readings,
`/proc` contents) is passed in explicitly; every Rust function is
translated into a pure Lean function over that environment.
-/

namespace TrashManager

/-- Scheduling states a process can be observed in (`R`, `S`, `D`, `Z`, `T`, `I`). -/
inductive PState
  | running
  | sleeping
  | diskWait
  | zombie
  | stopped
  | idle
deriving DecidableEq, Repr

/-- Kernel errno values that `nix::sys::signal::kill` can return. -/
inductive Errno
  | ESRCH
  | EPERM
  | other (s : String)
deriving DecidableEq, Repr

/-- The display string `nix::Errno::to_string()` produces, used by the code
when it builds a `SignalError` cause. -/
def Errno.toMessage : Errno → String
  | .ESRCH => "ESRCH: No such process"
  | .EPERM => "EPERM: Operation not permitted"
  | .other s => s

/-- Model of `ProcError` from `src/backend/src/types.rs` (identical copy in `lib.rs`). -/
inductive ProcError
  | PermissionDenied (pid : Int)
  | UnkillableState (pid : Int)
  | NotFound (pid : Int)
  | SignalError (pid : Int) (cause : String)
  | CgroupError (detail : String)
  | Other (detail : String)
  | ProcfsError (detail : String)
deriving DecidableEq, Repr

instance {ε α : Type} [DecidableEq ε] [DecidableEq α] : DecidableEq (Except ε α) :=
  fun a b =>
    match a, b with
    | .ok x, .ok y => decidable_of_iff (x = y) (by constructor <;> (intro h; cases h; rfl))
    | .error x, .error y =>
        decidable_of_iff (x = y) (by constructor <;> (intro h; cases h; rfl))
    | .ok _, .error _ => isFalse (by intro h; cases h)
    | .error _, .ok _ => isFalse (by intro h; cases h)

/-- Signals the kill protocol sends. -/
inductive Sig
  | SIGSTOP
  | SIGTERM
  | SIGKILL
deriving DecidableEq, Repr

/-- Observable kernel-facing actions of one `kill_pid` run, in order:
signal sends, the `signal::kill(pid, None)` liveness probe, and the
`thread::sleep` grace period (in milliseconds). -/
inductive KillEvent
  | send (s : Sig)
  | probe
  | sleepMs (n : Nat)
deriving DecidableEq, Repr

/-- Environment for one `kill_pid` call: the scheduling state the target is
observed in while the call runs, and the kernel's response to the n-th
`signal::kill` invocation (`none` = success, `some e` = failure with errno
`e`). `kill_pid` in the source never reads `pstate`; it is carried so that
claims quantifying over the target's state can be expressed. -/
structure KernelModel where
  pstate : PState
  resp : Nat → Option Errno

/-- Model of `kill_pid` from `src/backend/src/process_kill.rs` (identical copy in
`lib.rs` lines 81-108): SIGSTOP, SIGTERM, sleep 500 ms, liveness probe
(any probe failure ⇒ process gone ⇒ `Ok`), then SIGKILL. Every send
failure becomes `SignalError(pid, cause)`. Returns the result together
with the trace of kernel-facing actions performed. -/
def kill_pid (pid : Int) (km : KernelModel) : Except ProcError Unit × List KillEvent :=
  match km.resp 0 with
  | some e => (.error (.SignalError pid e.toMessage), [.send .SIGSTOP])
  | none =>
    match km.resp 1 with
    | some e => (.error (.SignalError pid e.toMessage), [.send .SIGSTOP, .send .SIGTERM])
    | none =>
      match km.resp 2 with
      | some _ =>
          (.ok (), [.send .SIGSTOP, .send .SIGTERM, .sleepMs 500, .probe])
      | none =>
        match km.resp 3 with
        | some e =>
            (.error (.SignalError pid e.toMessage),
             [.send .SIGSTOP, .send .SIGTERM, .sleepMs 500, .probe, .send .SIGKILL])
        | none =>
            (.ok (), [.send .SIGSTOP, .send .SIGTERM, .sleepMs 500, .probe, .send .SIGKILL])

/-- Model of `kill_tree` from `src/backend/src/process_kill.rs` lines 41-44
(identical copy in `lib.rs` lines 111-114): a TODO stub that ignores its
argument, performs no kernel action and returns `Ok(())`. -/
def kill_tree (_pid : Int) (_km : KernelModel) : Except ProcError Unit × List KillEvent :=
  (.ok (), [])

/-- Model of `kill_cgroup` from `src/backend/src/process_kill.rs` lines 47-50
(identical copy in `lib.rs` lines 117-120): a TODO stub that ignores its
argument, performs no write and returns `Ok(())`. -/
def kill_cgroup (_cgroup_path : String) : Except ProcError Unit :=
  .ok ()

/-- C1 (counterexample): a target observed in uninterruptible sleep
(state `D`) is not flagged `UnkillableState(5)`; `kill_pid` sends the
stop signal as its very first action and even reports success. -/
theorem kill_pid_dstate_counterexample :
    (⟨PState.diskWait, fun _ => none⟩ : KernelModel).pstate = PState.diskWait ∧
    (kill_pid 5 ⟨PState.diskWait, fun _ => none⟩).1 ≠
      Except.error (ProcError.UnkillableState 5) ∧
    (kill_pid 5 ⟨PState.diskWait, fun _ => none⟩).2.head? =
      some (KillEvent.send Sig.SIGSTOP) := by
  refine ⟨rfl, ?_, rfl⟩
  decide

/-- C1 (amended): `kill_pid` performs no state inspection at all: whatever
state the target is observed in (uninterruptible sleep and zombie
included), it never returns `UnkillableState` and its first action is
always sending the stop signal. -/
theorem kill_pid_no_state_check (pid : Int) (km : KernelModel) :
    (kill_pid pid km).1 ≠ Except.error (ProcError.UnkillableState pid) ∧
    (kill_pid pid km).2.head? = some (KillEvent.send Sig.SIGSTOP) := by
  unfold kill_pid
  cases km.resp 0 <;> cases km.resp 1 <;> cases km.resp 2 <;> cases km.resp 3 <;>
    exact ⟨by simp, rfl⟩

/-- C2 (counterexample): a permission failure (EPERM) at the first send
surfaces as `SignalError`, not `PermissionDenied`, and a vanished target
(ESRCH) at the first send surfaces as `SignalError`, not success. -/
theorem kill_pid_eperm_counterexample :
    (kill_pid 7 ⟨PState.running, fun _ => some Errno.EPERM⟩).1 =
      Except.error (ProcError.SignalError 7 "EPERM: Operation not permitted") ∧
    (kill_pid 7 ⟨PState.running, fun _ => some Errno.EPERM⟩).1 ≠
      Except.error (ProcError.PermissionDenied 7) ∧
    (kill_pid 9 ⟨PState.running, fun _ => some Errno.ESRCH⟩).1 =
      Except.error (ProcError.SignalError 9 "ESRCH: No such process") := by
  refine ⟨rfl, ?_, rfl⟩
  decide

/-- C2 (amended): every failed signal send at the stop, terminate or
force-kill step yields `SignalError(pid, cause)` whatever the cause
(permission failures and already-exited targets included); only a failure
of the liveness probe is treated as success. -/
theorem kill_pid_send_failures (pid : Int) (km : KernelModel) :
    (∀ e, km.resp 0 = some e →
        kill_pid pid km =
          (.error (.SignalError pid e.toMessage), [.send .SIGSTOP])) ∧
    (∀ e, km.resp 0 = none → km.resp 1 = some e →
        kill_pid pid km =
          (.error (.SignalError pid e.toMessage), [.send .SIGSTOP, .send .SIGTERM])) ∧
    (∀ e, km.resp 0 = none → km.resp 1 = none → km.resp 2 = some e →
        kill_pid pid km =
          (.ok (), [.send .SIGSTOP, .send .SIGTERM, .sleepMs 500, .probe])) ∧
    (∀ e, km.resp 0 = none → km.resp 1 = none → km.resp 2 = none → km.resp 3 = some e →
        kill_pid pid km =
          (.error (.SignalError pid e.toMessage),
           [.send .SIGSTOP, .send .SIGTERM, .sleepMs 500, .probe, .send .SIGKILL])) := by
  refine ⟨?_, ?_, ?_, ?_⟩
  · intro e h0
    unfold kill_pid
    rw [h0]
  · intro e h0 h1
    unfold kill_pid
    rw [h0, h1]
  · intro e h0 h1 h2
    unfold kill_pid
    rw [h0, h1, h2]
  · intro e h0 h1 h2 h3
    unfold kill_pid
    rw [h0, h1, h2, h3]

/-- C2 witness: concrete EPERM failure at the stop step. -/
theorem kill_pid_send_failures_witness :
    kill_pid 7 ⟨PState.running, fun _ => some Errno.EPERM⟩ =
      (.error (.SignalError 7 (Errno.toMessage Errno.EPERM)), [.send .SIGSTOP]) :=
  (kill_pid_send_failures 7 ⟨PState.running, fun _ => some Errno.EPERM⟩).1
    Errno.EPERM rfl

/-- C7: once the first two sends succeed, `kill_pid` performs exactly
stop, terminate, 500 ms wait, liveness probe; a probe failure (target
absent) returns success with no force-kill sent, and only when the probe
succeeds (target still present) is the force-kill signal sent. -/
theorem kill_pid_escalation (pid : Int) (km : KernelModel)
    (h0 : km.resp 0 = none) (h1 : km.resp 1 = none) :
    ((∃ e, km.resp 2 = some e) →
        kill_pid pid km =
          (.ok (), [.send .SIGSTOP, .send .SIGTERM, .sleepMs 500, .probe])) ∧
    (km.resp 2 = none →
        (kill_pid pid km).2 =
          [.send .SIGSTOP, .send .SIGTERM, .sleepMs 500, .probe, .send .SIGKILL]) := by
  constructor
  · rintro ⟨e, h2⟩
    unfold kill_pid
    rw [h0, h1, h2]
  · intro h2
    unfold kill_pid
    rw [h0, h1, h2]
    cases km.resp 3 <;> rfl

/-- C7 witness: a target that exits during the grace period (probe fails
with ESRCH) yields success with no SIGKILL in the trace. -/
theorem kill_pid_escalation_witness :
    kill_pid 4 ⟨PState.running, fun n => if n = 2 then some Errno.ESRCH else none⟩ =
      (.ok (), [.send .SIGSTOP, .send .SIGTERM, .sleepMs 500, .probe]) :=
  (kill_pid_escalation 4
      ⟨PState.running, fun n => if n = 2 then some Errno.ESRCH else none⟩
      rfl rfl).1 ⟨Errno.ESRCH, rfl⟩

/-- C3 (code bug): `kill_tree` is a TODO stub: on a root whose every
signal send would fail with EPERM it still returns `Ok` and performs no
kernel action at all — it neither applies the single-PID kill to any
member nor collects any failure. -/
theorem kill_tree_stub :
    kill_tree 1 ⟨PState.running, fun _ => some Errno.EPERM⟩ = (.ok (), []) := rfl

/-- C9 (code bug): `kill_cgroup` is a TODO stub: on a path whose control
file is absent it still returns `Ok` instead of `CgroupError`, having
attempted no write. -/
theorem kill_cgroup_stub :
    kill_cgroup ("/sys/fs/cgroup/nonexistent/cgroup.kill") = .ok () := rfl

/-- Model of `ProcessCpuData` from `src/backend/src/process_list.rs`: the stored
per-PID sample. Wall-clock instants are modelled as rational seconds. -/
structure ProcessCpuData where
  utime : Nat
  stime : Nat
  total_time : Nat
  last_update : ℚ
deriving DecidableEq, Repr

/-- Model of `CpuTracker` from `src/backend/src/process_list.rs`. The `HashMap` is
modelled as an association list with unique-key insert. -/
structure CpuTracker where
  process_data : List (Int × ProcessCpuData)
  last_system_total : Nat
  last_system_idle : Nat
  last_system_update : ℚ
  clock_ticks_per_second : Nat
deriving DecidableEq, Repr

/-- Model of `HashMap::get` on the association-list model. -/
def lookupPid (m : List (Int × ProcessCpuData)) (pid : Int) : Option ProcessCpuData :=
  match m with
  | [] => none
  | (k, v) :: rest => if k = pid then some v else lookupPid rest pid

/-- Model of `HashMap::insert` on the association-list model: replaces any existing
entry for the key. -/
def insertPid (m : List (Int × ProcessCpuData)) (pid : Int) (v : ProcessCpuData) :
    List (Int × ProcessCpuData) :=
  (pid, v) :: m.filter (fun p => decide (p.1 ≠ pid))

/-- Model of `CpuTracker::new`: empty history, system sample taken from the current
`/proc/stat` read (`sysRead = (total, idle)`) at the current instant,
clock ticks fixed at 100. -/
def CpuTracker.new (sysRead : Nat × Nat) (now : ℚ) : CpuTracker :=
  { process_data := []
    last_system_total := sysRead.1
    last_system_idle := sysRead.2
    last_system_update := now
    clock_ticks_per_second := 100 }

/-- Model of `CpuTracker::calculate_cpu_percent` from `src/backend/src/process_list.rs`
lines 64-132. `now` is the `Instant::now()` reading and `sysRead` the
`(total, idle)` pair `read_system_cpu_times` returned during this call.
`Instant::duration_since` saturates at zero, hence the `max … 0`;
`u64::saturating_sub` is Nat subtraction. Returns the updated tracker and
the reported percentage. -/
def calculate_cpu_percent (t : CpuTracker) (now : ℚ) (sysRead : Nat × Nat)
    (pid : Int) (utime stime : Nat) : CpuTracker × ℚ :=
  let total_time := utime + stime
  match lookupPid t.process_data pid with
  | some prev_data =>
      let elapsed_seconds : ℚ := max (now - prev_data.last_update) 0
      let system_elapsed_seconds : ℚ := max (now - t.last_system_update) 0
      if 1 ≤ elapsed_seconds ∧ 1 ≤ system_elapsed_seconds then
        let process_time_diff := total_time - prev_data.total_time
        let process_cpu_seconds : ℚ :=
          (process_time_diff : ℚ) / (t.clock_ticks_per_second : ℚ)
        let system_total_diff := sysRead.1 - t.last_system_total
        let system_cpu_seconds : ℚ :=
          (system_total_diff : ℚ) / (t.clock_ticks_per_second : ℚ)
        let cpu_percent : ℚ :=
          if 0 < system_cpu_seconds then
            process_cpu_seconds / system_cpu_seconds * 100
          else
            process_cpu_seconds / elapsed_seconds * 100
        let t1 := { t with
          process_data := insertPid t.process_data pid ⟨utime, stime, total_time, now⟩ }
        let t2 := if 1 ≤ system_elapsed_seconds then
            { t1 with
              last_system_total := sysRead.1
              last_system_idle := sysRead.2
              last_system_update := now }
          else t1
        (t2, max (min cpu_percent 100) 0)
      else (t, 0)
  | none =>
      ({ t with
          process_data := insertPid t.process_data pid ⟨utime, stime, total_time, now⟩ },
       0)

/-- Model of `CpuTracker::cleanup_old_processes` from `src/backend/src/process_list.rs`
lines 134-139: retain exactly the entries whose PID is in the current
enumeration's PID set. -/
def cleanup_old_processes (t : CpuTracker) (current_pids : List Int) : CpuTracker :=
  { t with
    process_data := t.process_data.filter (fun p => decide (p.1 ∈ current_pids)) }

/-- Model of `ProcessInfo` from `src/backend/src/types.rs`; `cpu_percent` is
modelled in ℚ. -/
structure ProcessInfo where
  pid : Int
  name : String
  cpu_percent : ℚ
  memory_bytes : Nat
  state : String
  ppid : Int
deriving DecidableEq, Repr

/-- The fields of `procfs` `Stat` that `list_processes` reads. -/
structure StatRecord where
  pid : Int
  comm : String
  state : String
  ppid : Int
  utime : Nat
  stime : Nat
deriving DecidableEq, Repr

/-- One element of the `all_processes()` iterator as `list_processes`
observes it: the `Result` item itself failed, `proc.stat()` failed, or
both succeeded — in which case the entry carries the `statm` resident
page count (`none` = `statm()` failed), plus the `Instant::now()` and
`/proc/stat` readings the environment yields while this process is
handled. -/
inductive ProcEntry
  | procErr
  | statErr
  | ok (stat : StatRecord) (statmResident : Option Nat) (now : ℚ) (sysRead : Nat × Nat)
deriving DecidableEq, Repr

/-- The per-process loop of `list_processes`
(`src/backend/src/process_list.rs` lines 161-189): skip failed entries,
compute memory (`resident * 4096`, defaulting to 0), route through the
estimator, and collect `(tracker, current_pids, processes)`. -/
def listLoop (tracker : CpuTracker) :
    List ProcEntry → CpuTracker × List Int × List ProcessInfo
  | [] => (tracker, [], [])
  | .procErr :: rest => listLoop tracker rest
  | .statErr :: rest => listLoop tracker rest
  | .ok stat statm now sys :: rest =>
      let memory_bytes := (statm.map (fun m => m * 4096)).getD 0
      let step := calculate_cpu_percent tracker now sys stat.pid stat.utime stat.stime
      let info : ProcessInfo :=
        { pid := stat.pid
          name := stat.comm
          cpu_percent := step.2
          memory_bytes := memory_bytes
          state := stat.state
          ppid := stat.ppid }
      let r := listLoop step.1 rest
      (r.1, stat.pid :: r.2.1, info :: r.2.2)

/-- Model of `list_processes` from `src/backend/src/process_list.rs` lines 144-200:
if the `/proc` directory read failed the call errors with
`Other("Failed to read /proc: …")` before touching the tracker; otherwise
the tracker is initialized if absent, every entry is processed, and the
stale entries are evicted. Returns the result and the tracker state
afterwards. -/
def list_processes (tracker0 : Option CpuTracker) (initSys : Nat × Nat) (initNow : ℚ)
    (all_procs : Except String (List ProcEntry)) :
    Except ProcError (List ProcessInfo) × Option CpuTracker :=
  match all_procs with
  | .error e => (.error (.Other ("Failed to read /proc: " ++ e)), tracker0)
  | .ok entries =>
      let tracker1 := match tracker0 with
        | none => CpuTracker.new initSys initNow
        | some t => t
      let r := listLoop tracker1 entries
      let tracker2 := cleanup_old_processes r.1 r.2.1
      (.ok r.2.2, some tracker2)

/-- The PIDs pushed onto `current_pids`: exactly the entries whose `stat()`
read succeeded, in order. -/
def entryPids : List ProcEntry → List Int
  | [] => []
  | .ok stat _ _ _ :: rest => stat.pid :: entryPids rest
  | _ :: rest => entryPids rest

/-- The stat/statm payloads of the successfully-read entries, in order. -/
def okStats : List ProcEntry → List (StatRecord × Option Nat)
  | [] => []
  | .ok stat statm _ _ :: rest => (stat, statm) :: okStats rest
  | _ :: rest => okStats rest

theorem lookupPid_filter_mem (m : List (Int × ProcessCpuData)) (c : List Int) (q : Int) :
    lookupPid (m.filter fun p => decide (p.1 ∈ c)) q =
      if q ∈ c then lookupPid m q else none := by
  induction m with
  | nil => simp [lookupPid]
  | cons p rest ih =>
      obtain ⟨k, v⟩ := p
      by_cases hk : k = q
      · subst hk
        by_cases hc : k ∈ c <;> simp [List.filter_cons, lookupPid, hc, ih]
      · by_cases hc : k ∈ c <;> simp [List.filter_cons, lookupPid, hk, hc, ih]

theorem lookupPid_filter_ne (m : List (Int × ProcessCpuData)) (k0 q : Int) :
    lookupPid (m.filter fun p => decide (p.1 ≠ k0)) q =
      if q = k0 then none else lookupPid m q := by
  induction m with
  | nil => simp [lookupPid]
  | cons p rest ih =>
      obtain ⟨k, v⟩ := p
      simp only [ne_eq, decide_not] at ih ⊢
      by_cases hk : k = q
      · subst hk
        by_cases hk0 : k = k0
        · subst hk0
          simp [List.filter_cons, lookupPid, ih]
        · simp [List.filter_cons, lookupPid, hk0, ih]
      · by_cases hk0 : k = k0
        · subst hk0
          simp [List.filter_cons, lookupPid, hk, ih]
        · simp [List.filter_cons, lookupPid, hk, hk0, ih]

theorem lookupPid_insert (m : List (Int × ProcessCpuData)) (k : Int) (v : ProcessCpuData)
    (q : Int) :
    lookupPid (insertPid m k v) q = if k = q then some v else lookupPid m q := by
  have hf := lookupPid_filter_ne m k q
  simp only [ne_eq, decide_not] at hf
  by_cases h : k = q
  · simp [insertPid, lookupPid, h]
  · have hq : ¬q = k := fun hh => h hh.symm
    simp [insertPid, lookupPid, h, hf, hq]

/-- One `calculate_cpu_percent` call either leaves the history unchanged
(only possible for an already-tracked PID) or replaces/creates the entry
for the sampled PID. -/
theorem calc_process_data (t : CpuTracker) (now : ℚ) (sysRead : Nat × Nat)
    (pid : Int) (utime stime : Nat) :
    ((calculate_cpu_percent t now sysRead pid utime stime).1.process_data = t.process_data ∧
      (lookupPid t.process_data pid).isSome) ∨
    (calculate_cpu_percent t now sysRead pid utime stime).1.process_data =
      insertPid t.process_data pid ⟨utime, stime, utime + stime, now⟩ := by
  rcases hl : lookupPid t.process_data pid with _ | prev
  · right
    simp only [calculate_cpu_percent, hl]
  · simp only [calculate_cpu_percent, hl]
    split
    · split
      · right; rfl
      · right; rfl
    · left
      exact ⟨rfl, rfl⟩

/-- After a `calculate_cpu_percent` call, a PID is tracked iff it is the
sampled PID or was tracked before. -/
theorem calc_mem (t : CpuTracker) (now : ℚ) (sysRead : Nat × Nat)
    (pid : Int) (utime stime : Nat) (q : Int) :
    (lookupPid (calculate_cpu_percent t now sysRead pid utime stime).1.process_data q).isSome
      ↔ q = pid ∨ (lookupPid t.process_data q).isSome := by
  rcases calc_process_data t now sysRead pid utime stime with ⟨heq, hsome⟩ | heq
  · rw [heq]
    constructor
    · exact Or.inr
    · rintro (rfl | h)
      · exact hsome
      · exact h
  · rw [heq, lookupPid_insert]
    by_cases h : pid = q
    · simp [h]
    · have hq : ¬q = pid := fun hh => h hh.symm
      simp [h, hq]

theorem listLoop_pids (entries : List ProcEntry) (t : CpuTracker) :
    (listLoop t entries).2.1 = entryPids entries := by
  induction entries generalizing t with
  | nil => rfl
  | cons e rest ih =>
      cases e with
      | procErr => exact ih t
      | statErr => exact ih t
      | ok stat statm now sys => simp [listLoop, entryPids, ih]

theorem listLoop_mem (entries : List ProcEntry) (t : CpuTracker) (q : Int) :
    (lookupPid (listLoop t entries).1.process_data q).isSome ↔
      q ∈ entryPids entries ∨ (lookupPid t.process_data q).isSome := by
  induction entries generalizing t with
  | nil => simp [listLoop, entryPids]
  | cons e rest ih =>
      cases e with
      | procErr => simpa [listLoop, entryPids] using ih t
      | statErr => simpa [listLoop, entryPids] using ih t
      | ok stat statm now sys =>
          simp only [listLoop, entryPids, List.mem_cons]
          rw [ih, calc_mem]
          tauto

theorem listLoop_infos (entries : List ProcEntry) (t : CpuTracker) :
    (listLoop t entries).2.2.map
        (fun r => (r.pid, r.name, r.state, r.ppid, r.memory_bytes)) =
      (okStats entries).map
        (fun p => (p.1.pid, p.1.comm, p.1.state, p.1.ppid,
          (p.2.map (fun m => m * 4096)).getD 0)) := by
  induction entries generalizing t with
  | nil => rfl
  | cons e rest ih => cases e <;> simp [listLoop, okStats, ih]

/-- C4: for a tracked PID sampled again with both the per-PID and the
system-wide elapsed time at least one second, the reported percentage is
`100 * process_ticks_delta / system_ticks_delta` when the system tick
delta is positive (both deltas floored at zero by `saturating_sub`),
else `100 * (process_ticks_delta / clock_ticks) / elapsed_seconds`,
clamped to `[0, 100]`. -/
theorem cpu_percent_formula (t : CpuTracker) (now : ℚ) (sysRead : Nat × Nat)
    (pid : Int) (utime stime : Nat) (prev : ProcessCpuData)
    (hprev : lookupPid t.process_data pid = some prev)
    (h1 : 1 ≤ now - prev.last_update)
    (h2 : 1 ≤ now - t.last_system_update)
    (hclk : 0 < t.clock_ticks_per_second) :
    (calculate_cpu_percent t now sysRead pid utime stime).2 =
      max (min
        (if 0 < sysRead.1 - t.last_system_total then
          100 * (((utime + stime) - prev.total_time : Nat) : ℚ) /
            ((sysRead.1 - t.last_system_total : Nat) : ℚ)
        else
          100 * ((((utime + stime) - prev.total_time : Nat) : ℚ) /
            (t.clock_ticks_per_second : ℚ)) / (now - prev.last_update))
        100) 0 ∧
    0 ≤ (calculate_cpu_percent t now sysRead pid utime stime).2 ∧
    (calculate_cpu_percent t now sysRead pid utime stime).2 ≤ 100 := by
  have hm1 : max (now - prev.last_update) 0 = now - prev.last_update :=
    max_eq_left (le_trans zero_le_one h1)
  have hm2 : max (now - t.last_system_update) 0 = now - t.last_system_update :=
    max_eq_left (le_trans zero_le_one h2)
  simp only [calculate_cpu_percent, hprev, hm1, hm2, h1, h2, and_self, if_true]
  refine ⟨?_, ?_, ?_⟩
  · congr 2
    have hclkQ : (0 : ℚ) < (t.clock_ticks_per_second : ℚ) := by exact_mod_cast hclk
    by_cases hsd : 0 < sysRead.1 - t.last_system_total
    · have hsdQ : (0 : ℚ) < ((sysRead.1 - t.last_system_total : Nat) : ℚ) := by
        exact_mod_cast hsd
      rw [if_pos (div_pos hsdQ hclkQ), if_pos hsd]
      field_simp
      ring
    · have hz : sysRead.1 - t.last_system_total = 0 := Nat.eq_zero_of_not_pos hsd
      rw [if_neg, if_neg hsd]
      · ring
      · rw [hz]
        norm_num
  · exact le_max_right _ _
  · exact max_le (min_le_right _ _) (by norm_num)

/-- C4 witness: a concrete two-sample measurement stays inside `[0, 100]`. -/
theorem cpu_percent_formula_witness :
    0 ≤ (calculate_cpu_percent
        (⟨[(5, ⟨3, 2, 5, 0⟩)], 50, 0, 0, 100⟩ : CpuTracker) 2 (150, 10) 5 40 15).2 ∧
    (calculate_cpu_percent
        (⟨[(5, ⟨3, 2, 5, 0⟩)], 50, 0, 0, 100⟩ : CpuTracker) 2 (150, 10) 5 40 15).2 ≤ 100 :=
  ⟨(cpu_percent_formula (⟨[(5, ⟨3, 2, 5, 0⟩)], 50, 0, 0, 100⟩ : CpuTracker) 2 (150, 10)
      5 40 15 ⟨3, 2, 5, 0⟩ (by simp [lookupPid]) (by norm_num) (by norm_num)
      (by norm_num)).2.1,
   (cpu_percent_formula (⟨[(5, ⟨3, 2, 5, 0⟩)], 50, 0, 0, 100⟩ : CpuTracker) 2 (150, 10)
      5 40 15 ⟨3, 2, 5, 0⟩ (by simp [lookupPid]) (by norm_num) (by norm_num)
      (by norm_num)).2.2⟩

/-- C6: a tracked PID sampled again less than one second after its stored
sample (or less than one second after the stored system-wide sample)
reports 0% and leaves the whole tracker — in particular the stored
per-PID sample — unchanged. -/
theorem cpu_percent_under_one_second (t : CpuTracker) (now : ℚ) (sysRead : Nat × Nat)
    (pid : Int) (utime stime : Nat) (prev : ProcessCpuData)
    (hprev : lookupPid t.process_data pid = some prev)
    (h : now - prev.last_update < 1 ∨ now - t.last_system_update < 1) :
    calculate_cpu_percent t now sysRead pid utime stime = (t, 0) := by
  have hc : ¬(1 ≤ max (now - prev.last_update) 0 ∧
      1 ≤ max (now - t.last_system_update) 0) := by
    rintro ⟨ha, hb⟩
    rcases h with h | h
    · exact absurd ha (not_le.mpr (max_lt h zero_lt_one))
    · exact absurd hb (not_le.mpr (max_lt h zero_lt_one))
  simp only [calculate_cpu_percent, hprev, if_neg hc]

/-- C6 witness: a re-observation after half a second reports 0 and keeps
the tracker untouched. -/
theorem cpu_percent_under_one_second_witness :
    calculate_cpu_percent
        (⟨[(5, ⟨3, 2, 5, 0⟩)], 50, 7, 0, 100⟩ : CpuTracker) (1 / 2) (150, 10) 5 40 15 =
      ((⟨[(5, ⟨3, 2, 5, 0⟩)], 50, 7, 0, 100⟩ : CpuTracker), 0) :=
  cpu_percent_under_one_second
    (⟨[(5, ⟨3, 2, 5, 0⟩)], 50, 7, 0, 100⟩ : CpuTracker) (1 / 2) (150, 10) 5 40 15
    ⟨3, 2, 5, 0⟩ (by simp [lookupPid]) (Or.inl (by norm_num))

/-- C5: after an enumeration, a PID has a stored CPU sample iff it
appeared in that enumeration's PID set — the history is bounded by the
live process count. -/
theorem tracked_iff_enumerated (tracker0 : Option CpuTracker) (initSys : Nat × Nat)
    (initNow : ℚ) (entries : List ProcEntry) :
    ∃ t2, (list_processes tracker0 initSys initNow (.ok entries)).2 = some t2 ∧
      ∀ q : Int, (lookupPid t2.process_data q).isSome ↔ q ∈ entryPids entries := by
  refine ⟨_, rfl, fun q => ?_⟩
  show (lookupPid (cleanup_old_processes _ _).process_data q).isSome ↔ _
  unfold cleanup_old_processes
  simp only [lookupPid_filter_mem, listLoop_pids]
  by_cases hq : q ∈ entryPids entries
  · rw [if_pos hq, listLoop_mem]
    simp [hq]
  · simp [hq]

/-- C8: with a readable process table, `list_processes` never errors; an
entry whose `stat()` read failed (or that vanished mid-enumeration) is
silently skipped, while every readable process is included — with
`memory_bytes = 0` when its optional `statm` record cannot be read. -/
theorem list_processes_best_effort (tracker0 : Option CpuTracker) (initSys : Nat × Nat)
    (initNow : ℚ) (entries : List ProcEntry) :
    ∃ l, (list_processes tracker0 initSys initNow (.ok entries)).1 = .ok l ∧
      l.map (fun r => (r.pid, r.name, r.state, r.ppid, r.memory_bytes)) =
        (okStats entries).map
          (fun p => (p.1.pid, p.1.comm, p.1.state, p.1.ppid,
            (p.2.map (fun m => m * 4096)).getD 0)) :=
  ⟨_, rfl, listLoop_infos entries _⟩

/-- C10: `list_processes` errors exactly when the top-level `/proc` read
itself fails, and then always with the `Other` variant; any per-process
failure still yields an `ok` result. -/
theorem list_processes_error_shape (tracker0 : Option CpuTracker) (initSys : Nat × Nat)
    (initNow : ℚ) (all_procs : Except String (List ProcEntry)) :
    (∀ e, (list_processes tracker0 initSys initNow all_procs).1 = .error e →
        ∃ s, all_procs = .error s ∧ e = .Other ("Failed to read /proc: " ++ s)) ∧
    (∀ entries, all_procs = .ok entries →
        ∃ l, (list_processes tracker0 initSys initNow all_procs).1 = .ok l) := by
  cases all_procs with
  | error s =>
      constructor
      · intro e h
        refine ⟨s, rfl, ?_⟩
        simp only [list_processes] at h
        injection h with h2
        exact h2.symm
      · intro entries h
        cases h
  | ok entries =>
      constructor
      · intro e h
        simp [list_processes] at h
      · intro es h
        exact ⟨_, rfl⟩

/-- C10 witness: a failed `/proc` read surfaces as the `Other` variant. -/
theorem list_processes_error_shape_witness :
    ∃ s, (Except.error ("boom") : Except String (List ProcEntry)) = Except.error s ∧
      ProcError.Other ("Failed to read /proc: boom") =
        ProcError.Other ("Failed to read /proc: " ++ s) :=
  (list_processes_error_shape none (0, 0) 0 (Except.error ("boom"))).1
    (ProcError.Other ("Failed to read /proc: boom")) rfl

end TrashManager
